import Mathlib

/-!
Shallow embedding of the `Panorama` viewer module of the three.js-box-panorama
repository (src/3d_panorama.js, first module revision, whose line numbers the
verification below refers to).

Modelling conventions:
* JavaScript numbers are modelled as `ℚ` (exact decimal literals such as `0.1`
  become `1 / 10`); `Math.round` is Mathlib `round` (both are half-up rounding).
* `Math.sin`, `Math.cos` and the constant `π` used by `THREE.Math.degToRad`
  are kept abstract: functions `rsin rcos : ℚ → ℚ` and a value `rpi : ℚ`
  (standing for `π`) are passed to every definition that needs them, so the
  whole development stays executable; no claim depends on analytic facts
  about sine or cosine.
* Nullable JavaScript values become `Option`; a thrown exception becomes
  `Except` / an explicit outcome constructor.
* The DOM container is summarised by the data the constructor reads from it
  (match count, width, height) and the jQuery `data('panorama')` slot plus the
  handler bindings become an explicit `World` record.
-/

namespace BoxPanorama

/-- The six canonical cube sides in source order (line 20). -/
def sides : List String := ["right", "left", "top", "bottom", "back", "front"]

/-- The exception constructors of `Panorama.exceptions` (lines 709-773). -/
inductive PanoError where
  | IncorrectArgument
  | RequiredParameter
  | RequiredSideTexture (side : String)
  | NoContainer
  | ContainerZeroSize
  | SinglePanoramaPerContainer
  | UnknownPrivateVariableName (varName : String)
  | HandlerCannotFoundThePanorama
  deriving DecidableEq

/-- The user-supplied `params` object of the constructor. `none` marks an
absent key; the `$.extend` defaults (lines 292-319) then apply. For the keys
whose default is `null` (`panoramaCode`, `imgPathMask`, `sideTextures`) an
explicitly null key and an absent key coincide after the extend, so both are
`none`. -/
structure ParamsInput where
  panoramaCode : Option String := none
  imgPathMask : Option String := none
  sideNames : Option (List String) := none
  sideTextures : Option (List (String × String)) := none
  startZoom : Option ℚ := none
  minFov : Option ℚ := none
  maxFov : Option ℚ := none
  fovMouseStep : Option ℚ := none
  mouseWheelRequired : Option Bool := none
  fpsLimit : Option ℚ := none
  deriving DecidableEq

/-- `this.params` after the `$.extend` with the defaults (lines 292-319). -/
structure Params where
  panoramaCode : Option String
  imgPathMask : Option String
  sideNames : List String
  sideTextures : Option (List (String × String))
  startZoom : ℚ
  minFov : ℚ
  maxFov : ℚ
  fovMouseStep : ℚ
  mouseWheelRequired : Bool
  fpsLimit : ℚ
  deriving DecidableEq

/-- The `$.extend` call of lines 292-319: fill every absent key with its
documented default value. -/
def extendParams (p : ParamsInput) : Params where
  panoramaCode := p.panoramaCode
  imgPathMask := p.imgPathMask
  sideNames := p.sideNames.getD sides
  sideTextures := p.sideTextures
  startZoom := p.startZoom.getD 0
  minFov := p.minFov.getD 10
  maxFov := p.maxFov.getD 75
  fovMouseStep := p.fovMouseStep.getD 2
  mouseWheelRequired := p.mouseWheelRequired.getD false
  fpsLimit := p.fpsLimit.getD 30

/-- JavaScript `side in sideTextures` (line 330): property-name membership of
the side-texture object, modelled as a key-value list. -/
def hasSide (st : List (String × String)) (side : String) : Bool :=
  (st.map Prod.fst).contains side

/-- The required-parameter validation block of lines 321-339: with no
`sideTextures`, both `panoramaCode` and `imgPathMask` must be present, else
`RequiredParameter`; with `sideTextures`, `sides.every` stops at the first of
the six sides missing from the object and reports it as
`RequiredSideTexture`. Returns the error of the first failed check. -/
def checkRequired (ps : Params) : Option PanoError :=
  match ps.sideTextures with
  | none =>
      if ps.panoramaCode = none ∨ ps.imgPathMask = none then
        some .RequiredParameter
      else none
  | some st =>
      match sides.find? (fun side => ! hasSide st side) with
      | some side => some (.RequiredSideTexture side)
      | none => none

/-- `Panorama.prototype.zoom` (lines 569-587), value part: clamp the percent
to [0,100], invert it, and round the linear interpolation between the fov
bounds. -/
def zoomCalc (minFov maxFov percent : ℚ) : ℤ :=
  let p1 := if percent < 0 then 0 else percent
  let p2 := if p1 > 100 then 100 else p1
  let inv := 100 - p2
  round (inv * (maxFov - minFov) / 100 + minFov)

/-- A `THREE.Vector3`, used for the camera look-at target. -/
structure Vec3 where
  x : ℚ
  y : ℚ
  z : ℚ
  deriving DecidableEq

/-- The drag reference captured by `mouseDownHandler` / `touchStartHandler`
(`mouseDownState` / `touchStartState`): origin screen coordinates and the
longitude/latitude at drag start. For touch events the two coordinate fields
hold `pageX`/`pageY`. -/
structure DragRef where
  clientX : ℚ
  clientY : ℚ
  lon : ℚ
  lat : ℚ
  deriving DecidableEq

/-- The state of one mounted panorama instance: the private variables of the
constructor closure (lines 44-194) together with the camera fields the module
mutates (`camera.fov`, `camera.aspect`, the `lookAt` target) and a counter of
`renderer.render` calls, which records how many frames were produced. -/
structure SessionState where
  params : Params
  lon : ℚ
  lat : ℚ
  phi : ℚ
  theta : ℚ
  target : Vec3
  cameraLookAt : Vec3
  cameraFov : ℚ
  cameraAspect : ℚ
  holdByUser : Bool
  mouseDownState : Option DragRef
  touchStartState : Option DragRef
  renderCount : ℕ
  deriving DecidableEq

/-- `Panorama.prototype.zoom` (lines 569-587) as an instance operation:
returns the updated state and the new fov value; with `justCalculate` the
camera is left untouched. -/
def zoom (s : SessionState) (percent : ℚ) (justCalculate : Bool) :
    SessionState × ℤ :=
  let newFov := zoomCalc s.params.minFov s.params.maxFov percent
  (if justCalculate then s else { s with cameraFov := (newFov : ℚ) }, newFov)

/-- `THREE.Math.degToRad` with the abstract value `rpi` standing for `π`. -/
def degToRad (rpi x : ℚ) : ℚ := x * rpi / 180

/-- `Panorama.prototype.draw` (lines 620-637): auto-advance the longitude by
0.1 when the user is not holding, wrap longitudes that reached 360 back to 0,
clamp the latitude to [-85, 85], convert to spherical angles, write the
look-at target on the sphere of radius 500, point the camera at it and render
one frame. -/
def draw (rsin rcos : ℚ → ℚ) (rpi : ℚ) (s : SessionState) : SessionState :=
  let lon1 := if s.holdByUser = false then s.lon + 1 / 10 else s.lon
  let lon2 := if 360 ≤ lon1 then 0 else lon1
  let lat2 := max (-85) (min 85 s.lat)
  let phi := degToRad rpi (90 - lat2)
  let theta := degToRad rpi lon2
  let tgt : Vec3 :=
    { x := 500 * rsin phi * rcos theta
      y := 500 * rcos phi
      z := 500 * rsin phi * rsin theta }
  { s with lon := lon2, lat := lat2, phi := phi, theta := theta,
           target := tgt, cameraLookAt := tgt,
           renderCount := s.renderCount + 1 }

/-- `Panorama.handlers.mouseDownHandler` (lines 826-839). -/
def mouseDownHandler (clientX clientY : ℚ) (s : SessionState) : SessionState :=
  { s with holdByUser := true,
           mouseDownState := some { clientX := clientX, clientY := clientY,
                                    lon := s.lon, lat := s.lat } }

/-- `Panorama.handlers.mouseMoveHandler` (lines 845-862): only while held and
with a captured reference, set the longitude and latitude from the screen
delta with sensitivity 0.1. -/
def mouseMoveHandler (clientX clientY : ℚ) (s : SessionState) : SessionState :=
  match s.holdByUser, s.mouseDownState with
  | true, some r =>
      { s with lon := (r.clientX - clientX) * (1 / 10) + r.lon,
               lat := (clientY - r.clientY) * (1 / 10) + r.lat }
  | _, _ => s

/-- `Panorama.handlers.mouseUpHandler` (lines 868-876). -/
def mouseUpHandler (s : SessionState) : SessionState :=
  { s with mouseDownState := none, holdByUser := false }

/-- `Panorama.handlers.mouseWheelHandler` (lines 882-901): a unit `deltaY` of
1 decreases the fov by `fovMouseStep` unless the result would cross `minFov`
(then nothing changes); a unit `deltaY` of -1 increases it symmetrically
against `maxFov`; every other delta does nothing. -/
def mouseWheelHandler (deltaY : ℚ) (s : SessionState) : SessionState :=
  if deltaY = 1 then
    if s.cameraFov - s.params.fovMouseStep < s.params.minFov then s
    else { s with cameraFov := s.cameraFov - s.params.fovMouseStep }
  else if deltaY = -1 then
    if s.params.maxFov < s.cameraFov + s.params.fovMouseStep then s
    else { s with cameraFov := s.cameraFov + s.params.fovMouseStep }
  else s

/-- `Panorama.handlers.touchStartHandler` (lines 907-922): raise the hold
flag always; capture a reference only for a single-touch start. -/
def touchStartHandler (touches : List (ℚ × ℚ)) (s : SessionState) :
    SessionState :=
  let s1 := { s with holdByUser := true }
  match touches with
  | [t] => { s1 with touchStartState := some { clientX := t.1, clientY := t.2,
                                               lon := s1.lon, lat := s1.lat } }
  | _ => s1

/-- `Panorama.handlers.touchMoveHandler` (lines 928-945). -/
def touchMoveHandler (touches : List (ℚ × ℚ)) (s : SessionState) :
    SessionState :=
  match touches, s.holdByUser, s.touchStartState with
  | [t], true, some r =>
      { s with lon := (r.clientX - t.1) * (1 / 10) + r.lon,
               lat := (t.2 - r.clientY) * (1 / 10) + r.lat }
  | _, _, _ => s

/-- `Panorama.handlers.touchEndHandler` (lines 951-959). -/
def touchEndHandler (s : SessionState) : SessionState :=
  { s with touchStartState := none, holdByUser := false }

/-- One input event delivered by the host environment to the container. -/
inductive InputEvent where
  | mouseDown (clientX clientY : ℚ)
  | mouseMove (clientX clientY : ℚ)
  | mouseUp
  | wheel (deltaY : ℚ)
  | touchStart (touches : List (ℚ × ℚ))
  | touchMove (touches : List (ℚ × ℚ))
  | touchEnd
  deriving DecidableEq

/-- Apply the body of the handler matching the event to a found session. -/
def applyInput (ev : InputEvent) (s : SessionState) : SessionState :=
  match ev with
  | .mouseDown x y => mouseDownHandler x y s
  | .mouseMove x y => mouseMoveHandler x y s
  | .mouseUp => mouseUpHandler s
  | .wheel d => mouseWheelHandler d s
  | .touchStart ts => touchStartHandler ts s
  | .touchMove ts => touchMoveHandler ts s
  | .touchEnd => touchEndHandler s

/-- The `getPanorama` helper (lines 814-820): look the session up through the
container's `data('panorama')` slot; if it is absent the handler raises
`HandlerCannotFoundThePanorama`. -/
def getPanorama (tag : Option SessionState) : Except PanoError SessionState :=
  match tag with
  | none => .error .HandlerCannotFoundThePanorama
  | some s => .ok s

/-- Dispatch of one input event against a container: every bound handler
first calls `getPanorama` and only then mutates the found session. -/
def dispatchEvent (ev : InputEvent) (tag : Option SessionState) :
    Except PanoError SessionState :=
  match getPanorama tag with
  | .error e => .error e
  | .ok s => .ok (applyInput ev s)

/-- One step of the run-to-completion interleaving of draws and input
handlers on a live session. -/
inductive SessionEvent where
  | input (ev : InputEvent)
  | drawFrame
  deriving DecidableEq

/-- Execute one interleaving step. -/
def stepSession (rsin rcos : ℚ → ℚ) (rpi : ℚ) (e : SessionEvent)
    (s : SessionState) : SessionState :=
  match e with
  | .input ev => applyInput ev s
  | .drawFrame => draw rsin rcos rpi s

/-- Execute a finite interleaving of draws and input events. -/
def runSession (rsin rcos : ℚ → ℚ) (rpi : ℚ) (evs : List SessionEvent)
    (s : SessionState) : SessionState :=
  evs.foldl (fun st e => stepSession rsin rcos rpi e st) s

/-- What the constructor reads from the resolved `$container`: how many DOM
elements the selector matched, and the container's width and height. -/
structure Container where
  size : ℕ
  width : ℚ
  height : ℚ
  deriving DecidableEq

/-- The mutable data attached to the container element: the
`data('panorama')` session slot and the namespaced event bindings placed on
the container. -/
structure World where
  panorama : Option SessionState
  bindings : List String
  deriving DecidableEq

/-- One extra constructor argument beyond `$selector` and `params`; only its
callability matters to the argument parser. -/
inductive JSArg where
  | callable
  | notCallable
  deriving DecidableEq

/-- The `params` argument as received: either not a plain object, or a plain
object with the given keys. -/
inductive ParamsArg where
  | notPlainObject
  | plainObj (p : ParamsInput)
  deriving DecidableEq

/-- The synchronous outcome of one construction attempt.
* `thrown e`: `makeError` found no registered callback and threw `e` to the
  caller synchronously.
* `asyncFail e`: `makeError` found a registered callback; on the next
  scheduling tick the callback receives `e` and a teardown of the partial
  instance is then attempted (lines 679-690).
* `okNoCallback s`: validation passed and, having no callback, the
  constructor drew the first frame synchronously (line 504).
* `okWithCallback s`: validation passed; the first draw and the success
  callback are deferred to the resolution of the `jquery.mousewheel`
  require (lines 507-531). -/
inductive SyncOutcome where
  | thrown (e : PanoError)
  | asyncFail (e : PanoError)
  | okNoCallback (s : SessionState)
  | okWithCallback (s : SessionState)
  deriving DecidableEq

/-- `Panorama.prototype.makeError` (lines 679-690): with a registered
callback the error is delivered asynchronously (and teardown follows),
otherwise it is thrown synchronously. -/
def makeError (callbackPresent : Bool) (e : PanoError) : SyncOutcome :=
  if callbackPresent then .asyncFail e else .thrown e

/-- The optional-argument parsing loop (lines 251-270): `every` over the
arguments after `params`, with `i` the index and `cb` whether a callback has
been registered so far. Any argument beyond the first, and any non-callable
argument, is an `IncorrectArgument` routed through `makeError` with the
callback state as of that moment. -/
def parseExtraArgs : List JSArg → ℕ → Bool → Except SyncOutcome Bool
  | [], _, cb => .ok cb
  | arg :: rest, i, cb =>
      if 0 < i then .error (makeError cb .IncorrectArgument)
      else
        match arg with
        | .callable =>
            if cb = false then parseExtraArgs rest (i + 1) true
            else .error (makeError cb .IncorrectArgument)
        | .notCallable => .error (makeError cb .IncorrectArgument)

/-- The session as initialised by the constructor body before the first draw
(lines 379-502): camera fov seeded by `zoom(startZoom, true)`, aspect from
the container, longitude 90, latitude 0, hold flag down, no drag references,
no frame rendered yet. -/
def initSession (ps : Params) (c : Container) : SessionState where
  params := ps
  lon := 90
  lat := 0
  phi := 0
  theta := 0
  target := { x := 0, y := 0, z := 0 }
  cameraLookAt := { x := 0, y := 0, z := 0 }
  cameraFov := (zoomCalc ps.minFov ps.maxFov ps.startZoom : ℚ)
  cameraAspect := c.width / c.height
  holdByUser := false
  mouseDownState := none
  touchStartState := none
  renderCount := 0

/-- The synchronous part of the `Panorama` constructor (lines 39-532): the
validation sequence in source order, then initialisation, registration of the
session in the container's data slot and of the handler bindings under the
generated `pid` namespace, and — when no callback was registered — the first
synchronous draw. -/
def construct (rsin rcos : ℚ → ℚ) (rpi : ℚ) (pargs : ParamsArg)
    (extra : List JSArg) (c : Container) (pid : String) (w : World) :
    SyncOutcome × World :=
  match pargs with
  | .notPlainObject => (makeError false .IncorrectArgument, w)
  | .plainObj pin =>
      match parseExtraArgs extra 0 false with
      | .error o => (o, w)
      | .ok cb =>
          let ps := extendParams pin
          match checkRequired ps with
          | some e => (makeError cb e, w)
          | none =>
              if c.size < 1 then (makeError cb .NoContainer, w)
              else if c.width < 1 ∨ c.height < 1 then
                (makeError cb .ContainerZeroSize, w)
              else if w.panorama.isSome then
                (makeError cb .SinglePanoramaPerContainer, w)
              else
                let s0 := initSession ps c
                if cb then
                  (.okWithCallback s0,
                   { panorama := some s0, bindings := w.bindings ++ [pid] })
                else
                  let s1 := draw rsin rcos rpi s0
                  (.okNoCallback s1,
                   { panorama := some s1, bindings := w.bindings ++ [pid] })

/-- The statements of `Panorama.prototype.destroy` (lines 646-667), in source
order. -/
inductive TeardownStep where
  | unbindContainer
  | unbindWindow
  | removeWrapper
  | clearTag
  | clearContainerField
  | clearWrapperField
  | clearParamsField
  | clearPanoramaIdField
  | clearResizeField
  | clearLastUpdateField
  | clearPrivateVars
  | clearHelpers
  deriving DecidableEq

/-- The teardown sequence exactly as written in `destroy` (lines 646-667):
unbind the container handlers, unbind the window handlers, remove the
wrapper from the DOM, clear the container's `data('panorama')` slot, then
null out the public fields, the private variables and the helper
functions. -/
def destroySteps : List TeardownStep :=
  [.unbindContainer, .unbindWindow, .removeWrapper, .clearTag,
   .clearContainerField, .clearWrapperField, .clearParamsField,
   .clearPanoramaIdField, .clearResizeField, .clearLastUpdateField,
   .clearPrivateVars, .clearHelpers]

/-- A JavaScript runtime fault: a property access or method call on
`undefined`. -/
inductive JsFault where
  | undefinedAccess
  deriving DecidableEq

/-- The state `destroy` operates on: the container's shared data (`world`),
the window-level bindings, whether the wrapper div is still in the DOM, and
the instance fields that `destroy` reads or nulls out (`none` models a field
holding `undefined`). -/
structure DestroyState where
  world : World
  windowBindings : List String
  wrapperAttached : Bool
  fContainer : Option Unit
  fWrapper : Option Unit
  fParams : Option Params
  fPanoramaId : Option String
  fResizeWrapper : Option Unit
  fLastUpdate : Option ℚ
  privCleared : Bool
  helpersCleared : Bool
  deriving DecidableEq

/-- The namespace string `'.' + this.panoramaId` uses: when `panoramaId` is
`undefined`, string concatenation yields the literal namespace
`"undefined"`. -/
def pidNamespace : Option String → String
  | some pid => pid
  | none => "undefined"

/-- jQuery `unbind('.' + ns)`: drop the bindings carrying namespace `ns`. -/
def unbindNs (pid : Option String) (l : List String) : List String :=
  l.filter (fun ns => ns ≠ pidNamespace pid)

/-- Execute one statement of `destroy`. Statements that call a method on
`this.$container` or `this.$panoramaWrapper` fault when that field is
`undefined` (stopping the rest of the teardown, as an uncaught exception
does). -/
def execStep (st : TeardownStep) (d : DestroyState) :
    Except JsFault DestroyState :=
  match st with
  | .unbindContainer =>
      match d.fContainer with
      | none => .error .undefinedAccess
      | some _ =>
          .ok { d with world :=
                  { d.world with
                      bindings := unbindNs d.fPanoramaId d.world.bindings } }
  | .unbindWindow =>
      .ok { d with
              windowBindings := unbindNs d.fPanoramaId d.windowBindings }
  | .removeWrapper =>
      match d.fWrapper with
      | none => .error .undefinedAccess
      | some _ => .ok { d with wrapperAttached := false }
  | .clearTag =>
      match d.fContainer with
      | none => .error .undefinedAccess
      | some _ => .ok { d with world := { d.world with panorama := none } }
  | .clearContainerField => .ok { d with fContainer := none }
  | .clearWrapperField => .ok { d with fWrapper := none }
  | .clearParamsField => .ok { d with fParams := none }
  | .clearPanoramaIdField => .ok { d with fPanoramaId := none }
  | .clearResizeField => .ok { d with fResizeWrapper := none }
  | .clearLastUpdateField => .ok { d with fLastUpdate := none }
  | .clearPrivateVars => .ok { d with privCleared := true }
  | .clearHelpers => .ok { d with helpersCleared := true }

/-- Run a list of teardown statements until the first fault; return the state
reached and the fault, if any. -/
def runSteps : List TeardownStep → DestroyState → DestroyState × Option JsFault
  | [], d => (d, none)
  | st :: rest, d =>
      match execStep st d with
      | .error f => (d, some f)
      | .ok d2 => runSteps rest d2

/-- A full call of `Panorama.prototype.destroy`. -/
def runDestroy (d : DestroyState) : DestroyState × Option JsFault :=
  runSteps destroySteps d

/-- The instance state at the moment a construction attempt failed at the
occupied-container check (line 361) with a callback registered: `$container`
and `this.params` are set, but `panoramaId` and `$panoramaWrapper` are not,
and nothing was attached to the container. This is the state the teardown
scheduled by `makeError` runs on. -/
def partialFailState (w : World) (wb : List String) (ps : Params) :
    DestroyState where
  world := w
  windowBindings := wb
  wrapperAttached := false
  fContainer := some ()
  fWrapper := none
  fParams := some ps
  fPanoramaId := none
  fResizeWrapper := none
  fLastUpdate := none
  privCleared := false
  helpersCleared := false

/-- The instance state of a fully constructed, live session about to be
destroyed: every field present, wrapper attached. -/
def liveState (sess : SessionState) (cb wb : List String) (pid : String)
    (ps : Params) (lu : ℚ) : DestroyState where
  world := { panorama := some sess, bindings := cb }
  windowBindings := wb
  wrapperAttached := true
  fContainer := some ()
  fWrapper := some ()
  fParams := some ps
  fPanoramaId := some pid
  fResizeWrapper := some ()
  fLastUpdate := some lu
  privCleared := false
  helpersCleared := false

/-- The fields of the instance that `animationLoop` (lines 596-611) reads:
the `$container` reference whose presence is the sole liveness check, the
last drawn timestamp, the fps limit and the session state `draw` works on. -/
structure LoopState where
  container : Option Unit
  lastAnimationUpdate : ℚ
  fpsLimit : ℚ
  session : SessionState
  deriving DecidableEq

/-- One `requestAnimationFrame` tick of `animationLoop` (lines 596-611): if
the container reference is gone the tick returns without drawing and without
rescheduling (second component `false`); otherwise a draw happens when at
least `1000 / fpsLimit` milliseconds elapsed since the last drawn frame, and
the loop reschedules unconditionally. -/
def animTick (rsin rcos : ℚ → ℚ) (rpi : ℚ) (time : ℚ) (ls : LoopState) :
    LoopState × Bool :=
  match ls.container with
  | none => (ls, false)
  | some _ =>
      if 1000 / ls.fpsLimit ≤ time - ls.lastAnimationUpdate then
        ({ ls with session := draw rsin rcos rpi ls.session,
                   lastAnimationUpdate := time }, true)
      else (ls, true)

/-- Run the paced loop over a list of tick timestamps, stopping as soon as a
tick declines to reschedule. -/
def animRun (rsin rcos : ℚ → ℚ) (rpi : ℚ) :
    List ℚ → LoopState → LoopState
  | [], ls => ls
  | t :: rest, ls =>
      match animTick rsin rcos rpi t ls with
      | (ls2, true) => animRun rsin rcos rpi rest ls2
      | (ls2, false) => ls2

/-- The default parameter set: `extendParams` of an empty plain object. -/
def defaultParams : Params := extendParams {}

/-- A six-entry side-texture object with one URL per canonical side. -/
def sampleSixTextures : List (String × String) :=
  sides.map (fun side => (side, "/panorama/" ++ side ++ ".png"))

/-- A 200 by 200 pixel container matching one DOM element. -/
def sampleContainer : Container := { size := 1, width := 200, height := 200 }

/-- A freshly initialised session with default parameters on the sample
container. -/
def sampleSession : SessionState := initSession defaultParams sampleContainer

/-- The projection that reads the session out of a successful construction
outcome. -/
def outcomeSession : SyncOutcome → Option SessionState
  | .okNoCallback s => some s
  | .okWithCallback s => some s
  | _ => none

/-- The drag-then-draw interleaving used to probe the longitude range: press
at screen x 0, drag to screen x 1000, then one draw. -/
def c6Events : List SessionEvent :=
  [.input (.mouseDown 0 0), .input (.mouseMove 1000 0), .drawFrame]

/-- The session produced by a callback-free construction on container `c`
with explicit side textures `st`: the initial session after its one
synchronous first draw. -/
def constructedSession (rsin rcos : ℚ → ℚ) (rpi : ℚ)
    (st : List (String × String)) (c : Container) : SessionState :=
  draw rsin rcos rpi (initSession (extendParams { sideTextures := some st }) c)

/-- The sample session with its longitude one auto-advance step below the
wrap bound. -/
def wrapSession : SessionState := { sampleSession with lon := 35995 / 100 }

/-- The sample session zoomed all the way in (camera fov at the default
`minFov`). -/
def minFovSession : SessionState := { sampleSession with cameraFov := 10 }

/-- A container world with no session and no bindings. -/
def emptyWorld : World := { panorama := none, bindings := [] }

/-- A container world already holding the sample session, its handlers bound
under one generated namespace. -/
def occupiedWorld : World :=
  { panorama := some sampleSession, bindings := ["panorama_id_0"] }

/-- A loop state whose owning instance was destroyed (container reference
nulled out). -/
def deadLoop : LoopState :=
  { container := none, lastAnimationUpdate := 0, fpsLimit := 30,
    session := sampleSession }

/-! ### Helper lemmas -/

/-- Half-up rounding is monotone. -/
theorem round_mono_q {x y : ℚ} (h : x ≤ y) : round x ≤ round y := by
  rw [round_eq, round_eq]
  exact Int.floor_mono (by linarith)

/-- Closed form of the zoom computation: the code's clamp-invert-interpolate
chain equals the specified formula over the clamped percent. -/
theorem zoomCalc_closed (mi ma p : ℚ) :
    zoomCalc mi ma p
      = round (mi + (100 - max 0 (min 100 p)) / 100 * (ma - mi)) := by
  simp only [zoomCalc]
  congr 1
  rcases lt_or_le p 0 with h1 | h1
  · rw [if_pos h1, if_neg (by norm_num : ¬ (0 : ℚ) > 100),
        min_eq_right (by linarith : p ≤ 100),
        max_eq_left (by linarith : p ≤ 0)]
    ring
  · rw [if_neg (not_lt.mpr h1)]
    rcases le_or_lt p 100 with h2 | h2
    · rw [if_neg (not_lt.mpr h2), min_eq_right h2, max_eq_right h1]
      ring
    · rw [if_pos h2, min_eq_left h2.le,
        max_eq_right (by norm_num : (0 : ℚ) ≤ 100)]
      ring

/-- The clamped percent is monotone in the percent. -/
theorem clampPercent_mono {p q : ℚ} (h : p ≤ q) :
    max 0 (min 100 p) ≤ max 0 (min 100 q) :=
  max_le_max le_rfl (min_le_min le_rfl h)

/-! ### C3 -/

/-- C3: for every percent p (clamped to [0,100]), `zoom(p)` returns
`round(minFov + (100-p)/100*(maxFov-minFov))`; in particular
`zoom(0) = maxFov`, `zoom(100) = minFov`, and the returned fov is
monotonically non-increasing as p increases (stated for integer fov bounds
with `minFov ≤ maxFov`, as in the default configuration [10, 75]). -/
theorem claim_C3_zoom_closed_form (mi ma : ℤ) (s : SessionState)
    (hmin : s.params.minFov = (mi : ℚ)) (hmax : s.params.maxFov = (ma : ℚ))
    (hle : (mi : ℚ) ≤ (ma : ℚ)) :
    (∀ p jc, (zoom s p jc).2
        = round ((mi : ℚ)
            + (100 - max 0 (min 100 p)) / 100 * ((ma : ℚ) - (mi : ℚ))))
    ∧ (∀ jc, (zoom s 0 jc).2 = ma)
    ∧ (∀ jc, (zoom s 100 jc).2 = mi)
    ∧ (∀ p q jc jc2, p ≤ q → (zoom s q jc).2 ≤ (zoom s p jc2).2) := by
  have hval : ∀ p jc, (zoom s p jc).2 = zoomCalc (mi : ℚ) (ma : ℚ) p := by
    intro p jc
    simp [zoom, hmin, hmax]
  refine ⟨?_, ?_, ?_, ?_⟩
  · intro p jc
    rw [hval, zoomCalc_closed]
  · intro jc
    rw [hval, zoomCalc_closed]
    have h0 : max 0 (min 100 (0 : ℚ)) = 0 := by
      rw [min_eq_right (by norm_num : (0 : ℚ) ≤ 100)]
      exact max_self 0
    rw [h0]
    have harg : (mi : ℚ) + (100 - 0) / 100 * ((ma : ℚ) - (mi : ℚ))
        = ((ma : ℤ) : ℚ) := by ring
    rw [harg, round_intCast]
  · intro jc
    rw [hval, zoomCalc_closed]
    have h0 : max 0 (min 100 (100 : ℚ)) = 100 := by
      rw [min_self]
      exact max_eq_right (by norm_num)
    rw [h0]
    have harg : (mi : ℚ) + (100 - 100) / 100 * ((ma : ℚ) - (mi : ℚ))
        = ((mi : ℤ) : ℚ) := by ring
    rw [harg, round_intCast]
  · intro p q jc jc2 hpq
    rw [hval, hval, zoomCalc_closed, zoomCalc_closed]
    apply round_mono_q
    have hc := clampPercent_mono hpq
    have hdiv : (100 - max 0 (min 100 q)) / 100
        ≤ (100 - max 0 (min 100 p)) / 100 := by linarith
    have hma : (0 : ℚ) ≤ (ma : ℚ) - (mi : ℚ) := by linarith
    have := mul_le_mul_of_nonneg_right hdiv hma
    linarith

/-- C3 witness: with the default bounds [10, 75], zooming to 0 percent on the
sample session yields fov 75, zooming to 100 percent yields 10, and the fov
at 30 percent is at least the fov at 60 percent. -/
theorem claim_C3_zoom_closed_form_witness :
    (zoom sampleSession 0 true).2 = 75
    ∧ (zoom sampleSession 100 true).2 = 10
    ∧ (zoom sampleSession 60 true).2 ≤ (zoom sampleSession 30 true).2 := by
  have hmin : sampleSession.params.minFov = ((10 : ℤ) : ℚ) := by
    norm_num [sampleSession, initSession, defaultParams, extendParams]
  have hmax : sampleSession.params.maxFov = ((75 : ℤ) : ℚ) := by
    norm_num [sampleSession, initSession, defaultParams, extendParams]
  have h := claim_C3_zoom_closed_form 10 75 sampleSession hmin hmax
    (by norm_num)
  exact ⟨h.2.1 true, h.2.2.1 true, h.2.2.2 30 60 true true (by norm_num)⟩

/-! ### C4 -/

/-- C4: with a positive wheel step, a wheel step away (unit delta -1,
increasing the fov) at fov = maxFov leaves the whole session unchanged, a
wheel step toward (unit delta 1, decreasing the fov) at fov = minFov leaves
it unchanged, and in general any wheel step whose result would cross the
[minFov, maxFov] bound leaves the session unchanged rather than partially
clamping. -/
theorem claim_C4_wheel_bounds (s : SessionState)
    (hstep : 0 < s.params.fovMouseStep) :
    (s.cameraFov = s.params.maxFov → mouseWheelHandler (-1) s = s)
    ∧ (s.cameraFov = s.params.minFov → mouseWheelHandler 1 s = s)
    ∧ (s.cameraFov - s.params.fovMouseStep < s.params.minFov →
        mouseWheelHandler 1 s = s)
    ∧ (s.params.maxFov < s.cameraFov + s.params.fovMouseStep →
        mouseWheelHandler (-1) s = s) := by
  have hne : ¬ ((-1 : ℚ) = 1) := by norm_num
  refine ⟨?_, ?_, ?_, ?_⟩
  · intro h
    rw [mouseWheelHandler, if_neg hne, if_pos rfl,
      if_pos (by rw [h]; linarith)]
  · intro h
    rw [mouseWheelHandler, if_pos rfl, if_pos (by rw [h]; linarith)]
  · intro h
    rw [mouseWheelHandler, if_pos rfl, if_pos h]
  · intro h
    rw [mouseWheelHandler, if_neg hne, if_pos rfl, if_pos h]

/-- C4 witness: on the sample session (fov 75 = maxFov) a scroll-away step
changes nothing, and on the session zoomed to fov 10 = minFov a
scroll-toward step changes nothing. -/
theorem claim_C4_wheel_bounds_witness :
    mouseWheelHandler (-1) sampleSession = sampleSession
    ∧ mouseWheelHandler 1 minFovSession = minFovSession := by
  have hfov : sampleSession.cameraFov = sampleSession.params.maxFov := by
    norm_num [sampleSession, initSession, defaultParams, extendParams,
      zoomCalc, round_eq]
  have hstep : (0 : ℚ) < sampleSession.params.fovMouseStep := by
    norm_num [sampleSession, initSession, defaultParams, extendParams]
  have hfov2 : minFovSession.cameraFov = minFovSession.params.minFov := by
    norm_num [minFovSession, sampleSession, initSession, defaultParams,
      extendParams]
  have hstep2 : (0 : ℚ) < minFovSession.params.fovMouseStep := by
    norm_num [minFovSession, sampleSession, initSession, defaultParams,
      extendParams]
  exact ⟨(claim_C4_wheel_bounds sampleSession hstep).1 hfov,
    (claim_C4_wheel_bounds minFovSession hstep2).2.1 hfov2⟩

/-! ### C10 -/

/-- C10: a wheel event whose deltaY is neither exactly 1 nor exactly -1
leaves the session, its camera fov included, entirely unchanged. -/
theorem claim_C10_nonunit_delta_noop (s : SessionState) (d : ℚ)
    (h1 : d ≠ 1) (h2 : d ≠ -1) : mouseWheelHandler d s = s := by
  rw [mouseWheelHandler, if_neg h1, if_neg h2]

/-- C10 witness: a fractional delta of one half, on the sample session, is a
no-op. -/
theorem claim_C10_nonunit_delta_noop_witness :
    mouseWheelHandler (1 / 2) sampleSession = sampleSession :=
  claim_C10_nonunit_delta_noop sampleSession (1 / 2) (by norm_num)
    (by norm_num)

/-! ### C5 -/

/-- C5: on every draw the stored latitude is the clamp of the previous one to
[-85, 85]; phi is the degree-to-radian image of 90 minus that latitude and
theta that of the stored longitude; the look-at target handed to the camera
is (500 sin phi cos theta, 500 cos phi, 500 sin phi sin theta); and no
session state beyond the orientation (lon, lat, phi, theta, target) changes:
params, camera fov and aspect, hold flag and both drag references are
untouched. -/
theorem claim_C5_draw_orientation (rsin rcos : ℚ → ℚ) (rpi : ℚ)
    (s : SessionState) :
    (draw rsin rcos rpi s).lat = max (-85) (min 85 s.lat)
    ∧ (draw rsin rcos rpi s).phi
        = degToRad rpi (90 - (draw rsin rcos rpi s).lat)
    ∧ (draw rsin rcos rpi s).theta = degToRad rpi (draw rsin rcos rpi s).lon
    ∧ (draw rsin rcos rpi s).target.x
        = 500 * rsin (draw rsin rcos rpi s).phi
            * rcos (draw rsin rcos rpi s).theta
    ∧ (draw rsin rcos rpi s).target.y
        = 500 * rcos (draw rsin rcos rpi s).phi
    ∧ (draw rsin rcos rpi s).target.z
        = 500 * rsin (draw rsin rcos rpi s).phi
            * rsin (draw rsin rcos rpi s).theta
    ∧ (draw rsin rcos rpi s).cameraLookAt = (draw rsin rcos rpi s).target
    ∧ (draw rsin rcos rpi s).params = s.params
    ∧ (draw rsin rcos rpi s).cameraFov = s.cameraFov
    ∧ (draw rsin rcos rpi s).cameraAspect = s.cameraAspect
    ∧ (draw rsin rcos rpi s).holdByUser = s.holdByUser
    ∧ (draw rsin rcos rpi s).mouseDownState = s.mouseDownState
    ∧ (draw rsin rcos rpi s).touchStartState = s.touchStartState := by
  refine ⟨rfl, rfl, rfl, rfl, rfl, rfl, rfl, rfl, rfl, rfl, rfl, rfl, rfl⟩


/-! ### C6 -/

/-- C6 counterexample: a session state reachable by an interleaving of drag
updates and draws — press at screen x 0, drag to screen x 1000, then one
draw — ends with stored longitude -10 after the draw, which is not in
[0, 360): draws do not wrap negative longitudes introduced by drags. -/
theorem claim_C6_counterexample :
    (runSession (fun x => x) (fun x => x) 0 c6Events sampleSession).lon = -10
    ∧ ¬ (0 ≤ (runSession (fun x => x) (fun x => x) 0 c6Events
          sampleSession).lon
        ∧ (runSession (fun x => x) (fun x => x) 0 c6Events
            sampleSession).lon < 360) := by
  have h : (runSession (fun x => x) (fun x => x) 0 c6Events
      sampleSession).lon = -10 := by
    norm_num [runSession, c6Events, List.foldl, stepSession, applyInput,
      mouseDownHandler, mouseMoveHandler, draw, sampleSession, initSession]
  refine ⟨h, ?_⟩
  rw [h]
  intro hc
  exact absurd hc.1 (by norm_num)

/-- C6 (amended): after each draw the stored longitude is strictly below 360
(the auto-advance wrap resets any longitude at or above 360 to exactly 0, so
a step from 359.95 with increment 0.1 yields 0.0 and not 360.05), and draws
preserve non-negativity of the longitude; but the interval [0, 360) is not an
invariant of all interleavings, because drag updates can move the longitude
below 0 and no draw wraps negative values back. -/
theorem claim_C6_amended_wrap (rsin rcos : ℚ → ℚ) (rpi : ℚ)
    (s : SessionState) :
    (draw rsin rcos rpi s).lon < 360
    ∧ (0 ≤ s.lon → 0 ≤ (draw rsin rcos rpi s).lon)
    ∧ (s.lon = 35995 / 100 → s.holdByUser = false →
        (draw rsin rcos rpi s).lon = 0) := by
  have hlon : (draw rsin rcos rpi s).lon
      = (if 360 ≤ (if s.holdByUser = false then s.lon + 1 / 10 else s.lon)
         then 0
         else if s.holdByUser = false then s.lon + 1 / 10 else s.lon) := rfl
  refine ⟨?_, ?_, ?_⟩
  · rw [hlon]
    split_ifs <;> linarith
  · intro h0
    rw [hlon]
    split_ifs <;> linarith
  · intro hl hh
    rw [hlon, hh, hl]
    norm_num

/-- C6 witness: an auto-advance draw from longitude 359.95 with the session
not held lands exactly on longitude 0, below 360. -/
theorem claim_C6_amended_wrap_witness :
    (draw (fun x => x) (fun x => x) 0 wrapSession).lon = 0
    ∧ (draw (fun x => x) (fun x => x) 0 wrapSession).lon < 360 := by
  refine ⟨(claim_C6_amended_wrap (fun x => x) (fun x => x) 0
      wrapSession).2.2 rfl rfl,
    (claim_C6_amended_wrap (fun x => x) (fun x => x) 0 wrapSession).1⟩

/-! ### C1 -/

/-- C1 counterexample: a construction attempt whose params argument is not a
plain object, even though a callable completion callback is supplied as the
third argument, throws IncorrectArgument synchronously to the caller — the
error is not delivered to the callback asynchronously, because the wrong-
params-type check runs before the callback is parsed and registered. -/
theorem claim_C1_counterexample :
    (construct (fun x => x) (fun x => x) 0 .notPlainObject [.callable]
        sampleContainer "panorama_id_1" emptyWorld).1
      = .thrown .IncorrectArgument
    ∧ (construct (fun x => x) (fun x => x) 0 .notPlainObject [.callable]
        sampleContainer "panorama_id_1" emptyWorld).1
      ≠ .asyncFail .IncorrectArgument := by
  refine ⟨rfl, ?_⟩
  intro h
  simp [construct, makeError] at h

/-- C1 (amended): construction failures detected before the callback is
registered — a params argument that is not a plain object, or a first extra
argument that is not callable — are thrown synchronously to the caller even
when a callback argument was passed; every failure detected after callback
registration (a surplus extra argument, missing required source parameters,
missing side texture, unresolved container, zero-size container, occupied
container) is delivered to the registered callback asynchronously on the
next scheduling tick, followed by a teardown attempt of the partial
instance, while without a callback the same failures are thrown
synchronously. -/
theorem claim_C1_amended_error_channel (rsin rcos : ℚ → ℚ) (rpi : ℚ) :
    (∀ extra c pid w,
        construct rsin rcos rpi .notPlainObject extra c pid w
          = (.thrown .IncorrectArgument, w))
    ∧ (∀ pin rest c pid w,
        construct rsin rcos rpi (.plainObj pin) (.notCallable :: rest) c pid w
          = (.thrown .IncorrectArgument, w))
    ∧ (∀ pin a rest c pid w,
        construct rsin rcos rpi (.plainObj pin) (.callable :: a :: rest)
            c pid w
          = (.asyncFail .IncorrectArgument, w))
    ∧ (∀ pin e c pid w, checkRequired (extendParams pin) = some e →
        construct rsin rcos rpi (.plainObj pin) [] c pid w = (.thrown e, w)
        ∧ construct rsin rcos rpi (.plainObj pin) [.callable] c pid w
            = (.asyncFail e, w))
    ∧ (∀ pin c pid w, checkRequired (extendParams pin) = none →
        c.size < 1 →
        construct rsin rcos rpi (.plainObj pin) [] c pid w
          = (.thrown .NoContainer, w)
        ∧ construct rsin rcos rpi (.plainObj pin) [.callable] c pid w
            = (.asyncFail .NoContainer, w))
    ∧ (∀ pin c pid w, checkRequired (extendParams pin) = none →
        ¬ c.size < 1 → (c.width < 1 ∨ c.height < 1) →
        construct rsin rcos rpi (.plainObj pin) [] c pid w
          = (.thrown .ContainerZeroSize, w)
        ∧ construct rsin rcos rpi (.plainObj pin) [.callable] c pid w
            = (.asyncFail .ContainerZeroSize, w))
    ∧ (∀ pin c pid w, checkRequired (extendParams pin) = none →
        ¬ c.size < 1 → ¬ (c.width < 1 ∨ c.height < 1) →
        w.panorama.isSome = true →
        construct rsin rcos rpi (.plainObj pin) [] c pid w
          = (.thrown .SinglePanoramaPerContainer, w)
        ∧ construct rsin rcos rpi (.plainObj pin) [.callable] c pid w
            = (.asyncFail .SinglePanoramaPerContainer, w)) := by
  refine ⟨?_, ?_, ?_, ?_, ?_, ?_, ?_⟩
  · intro extra c pid w
    rfl
  · intro pin rest c pid w
    rfl
  · intro pin a rest c pid w
    rfl
  · intro pin e c pid w hreq
    constructor
    · simp [construct, parseExtraArgs, hreq, makeError]
    · simp [construct, parseExtraArgs, hreq, makeError]
  · intro pin c pid w hreq hsz
    have hsz0 : c.size = 0 := by omega
    constructor <;>
      simp [construct, parseExtraArgs, hreq, makeError, hsz0]
  · intro pin c pid w hreq hsz hwh
    have hsz0 : ¬ c.size = 0 := by omega
    constructor <;>
      simp [construct, parseExtraArgs, hreq, makeError, hsz0, if_pos hwh]
  · intro pin c pid w hreq hsz hwh hocc
    have hsz0 : ¬ c.size = 0 := by omega
    constructor <;>
      simp [construct, parseExtraArgs, hreq, makeError, hsz0, if_neg hwh,
        hocc]

/-- C1 witness: constructing with an empty plain params object (no source
specification) throws RequiredParameter synchronously without a callback,
and routes the same error through the asynchronous failure channel when a
callable callback is supplied. -/
theorem claim_C1_amended_error_channel_witness :
    construct (fun x => x) (fun x => x) 0 (.plainObj {}) []
        sampleContainer "panorama_id_1" emptyWorld
      = (.thrown .RequiredParameter, emptyWorld)
    ∧ construct (fun x => x) (fun x => x) 0 (.plainObj {}) [.callable]
        sampleContainer "panorama_id_1" emptyWorld
      = (.asyncFail .RequiredParameter, emptyWorld) := by
  have hreq : checkRequired (extendParams {}) = some .RequiredParameter := by
    simp [checkRequired, extendParams]
  exact (claim_C1_amended_error_channel (fun x => x) (fun x => x)
    0).2.2.2.1 {} .RequiredParameter sampleContainer "panorama_id_1"
    emptyWorld hreq

/-! ### C7 -/

/-- C7 counterexample: on a 200 by 200 container with all six side textures
and no callback, construction succeeds synchronously, but the session after
the one synchronous first frame holds longitude 90.1, not 90: the first draw
already applies the 0.1-degree auto-advance to the initial longitude 90. -/
theorem claim_C7_counterexample :
    Option.map SessionState.lon
        (outcomeSession
          (construct (fun x => x) (fun x => x) 0
              (.plainObj { sideTextures := some sampleSixTextures }) []
              sampleContainer "panorama_id_1" emptyWorld).1)
      = some (901 / 10)
    ∧ ¬ ((901 : ℚ) / 10 = 90) := by
  constructor
  · norm_num [construct, parseExtraArgs, checkRequired, extendParams,
      hasSide, sampleSixTextures, sides, sampleContainer, emptyWorld,
      outcomeSession, draw, initSession]
  · norm_num

/-- C7 (amended): for a container of positive size and a params object
supplying all six side textures, a construction with no callback succeeds
synchronously, registers the session on the container, and draws exactly one
frame synchronously; the camera state of that frame is fov 75 (computed from
the default startZoom 0 over the default bounds [10, 75]) and latitude 0,
while the longitude of the frame is 90.1 — the initial longitude 90 plus the
0.1-degree auto-advance that the first draw applies because the session is
not held. -/
theorem claim_C7_amended_first_frame (rsin rcos : ℚ → ℚ) (rpi : ℚ)
    (st : List (String × String))
    (hst : ∀ side ∈ sides, hasSide st side = true)
    (c : Container) (hsz : ¬ c.size = 0) (hw : ¬ c.width < 1)
    (hh : ¬ c.height < 1) (pid : String) (w : World)
    (hfree : w.panorama = none) :
    construct rsin rcos rpi (.plainObj { sideTextures := some st }) [] c pid w
      = (.okNoCallback (constructedSession rsin rcos rpi st c),
         { panorama := some (constructedSession rsin rcos rpi st c),
           bindings := w.bindings ++ [pid] })
    ∧ (constructedSession rsin rcos rpi st c).renderCount = 1
    ∧ (constructedSession rsin rcos rpi st c).cameraFov = 75
    ∧ (constructedSession rsin rcos rpi st c).lon = 901 / 10
    ∧ (constructedSession rsin rcos rpi st c).lat = 0 := by
  have hfind : sides.find? (fun side => ! hasSide st side) = none := by
    apply List.find?_eq_none.mpr
    intro a ha
    simp [hst a ha]
  have hreq : checkRequired (extendParams { sideTextures := some st })
      = none := by
    simp [checkRequired, extendParams, hfind]
  have hwh : ¬ (c.width < 1 ∨ c.height < 1) := not_or.mpr ⟨hw, hh⟩
  refine ⟨?_, ?_, ?_, ?_, ?_⟩
  · simp [construct, parseExtraArgs, hreq, hsz, if_neg hwh, hfree,
      constructedSession]
  · rfl
  · norm_num [constructedSession, draw, initSession, extendParams,
      zoomCalc, round_eq]
  · norm_num [constructedSession, draw, initSession]
  · norm_num [constructedSession, draw, initSession]

/-- C7 witness: the concrete session constructed on the sample container
with the sample six textures has exactly one rendered frame, camera fov 75,
longitude 90.1 and latitude 0. -/
theorem claim_C7_amended_first_frame_witness :
    (constructedSession (fun x => x) (fun x => x) 0 sampleSixTextures
        sampleContainer).renderCount = 1
    ∧ (constructedSession (fun x => x) (fun x => x) 0 sampleSixTextures
        sampleContainer).cameraFov = 75
    ∧ (constructedSession (fun x => x) (fun x => x) 0 sampleSixTextures
        sampleContainer).lon = 901 / 10
    ∧ (constructedSession (fun x => x) (fun x => x) 0 sampleSixTextures
        sampleContainer).lat = 0 := by
  have h := claim_C7_amended_first_frame (fun x => x) (fun x => x) 0
    sampleSixTextures (by decide) sampleContainer (by decide)
    (by norm_num [sampleContainer]) (by norm_num [sampleContainer])
    "panorama_id_1" emptyWorld rfl
  exact ⟨h.2.1, h.2.2.1, h.2.2.2.1, h.2.2.2.2⟩

/-! ### C2 -/

/-- C2: constructing a second session on a container already holding one
fails with SinglePanoramaPerContainer — synchronously thrown with no
callback, delivered asynchronously with one — and the attempt leaves the
container world, and so the mounted session's state and bindings, unchanged;
moreover the teardown that the asynchronous failure path schedules faults on
the partial instance (its wrapper field is undefined) before ever reaching
the tag-clearing step, so it too leaves the mounted session's tag and
bindings untouched. -/
theorem claim_C2_occupied_container (rsin rcos : ℚ → ℚ) (rpi : ℚ)
    (pin : ParamsInput) (hreq : checkRequired (extendParams pin) = none)
    (c : Container) (hsz : ¬ c.size = 0) (hw : ¬ c.width < 1)
    (hh : ¬ c.height < 1) (pid : String) (w : World) (ex : SessionState)
    (hocc : w.panorama = some ex) (ps : Params) (wb : List String)
    (hub : "undefined" ∉ w.bindings) (huw : "undefined" ∉ wb) :
    construct rsin rcos rpi (.plainObj pin) [] c pid w
      = (.thrown .SinglePanoramaPerContainer, w)
    ∧ construct rsin rcos rpi (.plainObj pin) [.callable] c pid w
      = (.asyncFail .SinglePanoramaPerContainer, w)
    ∧ (runDestroy (partialFailState w wb ps)).1.world = w
    ∧ (runDestroy (partialFailState w wb ps)).1.windowBindings = wb
    ∧ (runDestroy (partialFailState w wb ps)).2 = some .undefinedAccess := by
  have hwh : ¬ (c.width < 1 ∨ c.height < 1) := not_or.mpr ⟨hw, hh⟩
  have h1 : unbindNs none w.bindings = w.bindings := by
    unfold unbindNs
    apply List.filter_eq_self.mpr
    intro a ha
    simp [pidNamespace]
    intro h
    subst h
    exact hub ha
  have h2 : unbindNs none wb = wb := by
    unfold unbindNs
    apply List.filter_eq_self.mpr
    intro a ha
    simp [pidNamespace]
    intro h
    subst h
    exact huw ha
  refine ⟨?_, ?_, ?_, ?_, ?_⟩
  · simp [construct, parseExtraArgs, hreq, makeError, hsz, if_neg hwh, hocc]
  · simp [construct, parseExtraArgs, hreq, makeError, hsz, if_neg hwh, hocc]
  · simp [runDestroy, destroySteps, runSteps, execStep, partialFailState,
      h1, h2]
  · simp [runDestroy, destroySteps, runSteps, execStep, partialFailState,
      h1, h2]
  · simp [runDestroy, destroySteps, runSteps, execStep, partialFailState,
      h1, h2]

/-- C2 witness: on the occupied sample world, a second construction throws
SinglePanoramaPerContainer and the world — still holding the sample session
— is returned unchanged, while the scheduled partial teardown stops with an
undefined-access fault without touching the world. -/
theorem claim_C2_occupied_container_witness :
    construct (fun x => x) (fun x => x) 0
        (.plainObj { sideTextures := some sampleSixTextures }) []
        sampleContainer "panorama_id_1" occupiedWorld
      = (.thrown .SinglePanoramaPerContainer, occupiedWorld)
    ∧ (runDestroy (partialFailState occupiedWorld ["panorama_id_0"]
          defaultParams)).1.world = occupiedWorld := by
  have hreq : checkRequired
      (extendParams { sideTextures := some sampleSixTextures }) = none := by
    decide
  have h := claim_C2_occupied_container (fun x => x) (fun x => x) 0
    { sideTextures := some sampleSixTextures } hreq sampleContainer
    (by decide) (by norm_num [sampleContainer])
    (by norm_num [sampleContainer]) "panorama_id_1" occupiedWorld
    sampleSession rfl defaultParams ["panorama_id_0"] (by decide) (by decide)
  exact ⟨h.1, h.2.2.1⟩

/-! ### C8 -/

/-- C8: a completed destroy of a live session clears the container's session
tag and nulls the instance's container field without faulting; once the
container reference is gone, every further tick of the paced animation loop
performs no draw and does not reschedule (so over any sequence of ticks the
loop state — its render count included — never changes); and dispatching any
stale input event against a container with no associated session raises
HandlerCannotFoundThePanorama instead of producing a mutated state. -/
theorem claim_C8_destroy_quiescence (rsin rcos : ℚ → ℚ) (rpi : ℚ)
    (sess : SessionState) (cb wb : List String) (pid : String) (ps : Params)
    (lu : ℚ) :
    (runDestroy (liveState sess cb wb pid ps lu)).2 = none
    ∧ (runDestroy (liveState sess cb wb pid ps lu)).1.world.panorama = none
    ∧ (runDestroy (liveState sess cb wb pid ps lu)).1.fContainer = none
    ∧ (∀ t ls, ls.container = none →
        animTick rsin rcos rpi t ls = (ls, false))
    ∧ (∀ times ls, ls.container = none →
        animRun rsin rcos rpi times ls = ls)
    ∧ (∀ ev, dispatchEvent ev none
        = Except.error PanoError.HandlerCannotFoundThePanorama) := by
  refine ⟨?_, ?_, ?_, ?_, ?_, ?_⟩
  · simp [runDestroy, destroySteps, runSteps, execStep, liveState]
  · simp [runDestroy, destroySteps, runSteps, execStep, liveState]
  · simp [runDestroy, destroySteps, runSteps, execStep, liveState]
  · intro t ls h
    simp [animTick, h]
  · intro times ls h
    cases times with
    | nil => rfl
    | cons t rest => simp [animRun, animTick, h]
  · intro ev
    rfl

/-- C8 witness: destroying the concrete live sample instance leaves no
session tag; the paced loop run over two further ticks on the destroyed loop
state changes nothing; a stale mouse-up dispatch raises the handler-not-found
error. -/
theorem claim_C8_destroy_quiescence_witness :
    (runDestroy (liveState sampleSession ["panorama_id_1"]
        ["panorama_id_1"] "panorama_id_1" defaultParams 0)).1.world.panorama
      = none
    ∧ animRun (fun x => x) (fun x => x) 0 [0, 100] deadLoop = deadLoop
    ∧ dispatchEvent .mouseUp none
      = Except.error PanoError.HandlerCannotFoundThePanorama := by
  have h := claim_C8_destroy_quiescence (fun x => x) (fun x => x) 0
    sampleSession ["panorama_id_1"] ["panorama_id_1"] "panorama_id_1"
    defaultParams 0
  exact ⟨h.2.1, h.2.2.2.2.1 [0, 100] deadLoop rfl, h.2.2.2.2.2 .mouseUp⟩

/-! ### C9 -/

/-- C9 counterexample: the first teardown statement of destroy is the
container-handler unbind, not the tag clear; the tag clear is only the
fourth statement, after both unbinds and the wrapper removal. -/
theorem claim_C9_counterexample :
    destroySteps.head? = some TeardownStep.unbindContainer
    ∧ destroySteps.head? ≠ some TeardownStep.clearTag
    ∧ List.take 4 destroySteps
      = [TeardownStep.unbindContainer, TeardownStep.unbindWindow,
         TeardownStep.removeWrapper, TeardownStep.clearTag] := by
  refine ⟨rfl, by decide, rfl⟩

/-- C9 (amended): destroy clears the container-to-session tag synchronously
within the teardown, but as the fourth step — after handler unbinding and
surface removal, though before every field-cleanup step — and a completed
destroy of a live session ends with the tag cleared and no fault. -/
theorem claim_C9_amended_teardown_order (sess : SessionState)
    (cb wb : List String) (pid : String) (ps : Params) (lu : ℚ) :
    List.take 4 destroySteps
      = [TeardownStep.unbindContainer, TeardownStep.unbindWindow,
         TeardownStep.removeWrapper, TeardownStep.clearTag]
    ∧ List.drop 4 destroySteps
      = [TeardownStep.clearContainerField, TeardownStep.clearWrapperField,
         TeardownStep.clearParamsField, TeardownStep.clearPanoramaIdField,
         TeardownStep.clearResizeField, TeardownStep.clearLastUpdateField,
         TeardownStep.clearPrivateVars, TeardownStep.clearHelpers]
    ∧ (runDestroy (liveState sess cb wb pid ps lu)).2 = none
    ∧ (runDestroy (liveState sess cb wb pid ps lu)).1.world.panorama
        = none := by
  refine ⟨rfl, rfl, ?_, ?_⟩ <;>
    simp [runDestroy, destroySteps, runSteps, execStep, liveState]

end BoxPanorama
